import Mathlib

/-!
Verification of the feature-encoding and inference-advisory core of the
tomato shelf-life predictor (`src/app.py`).

The embedding translates the code under the prediction button
(`src/app.py` lines 305-359) into pure Lean definitions:

* `FEATURE_COLUMNS`, `VARIETIES`, `PACKAGING_TYPES` mirror the constant
  lists at lines 219-227.
* `input_dict` mirrors the dictionary built at lines 307-320: the four
  numeric fields followed by the manual one-hot loops over
  `PACKAGING_TYPES` and `VARIETIES`.
* `input_encoded` mirrors `pd.DataFrame([input_dict])[FEATURE_COLUMNS]`
  at line 323: a reindexing of the dictionary by the fixed column list.
  A missing key would make pandas raise `KeyError`, which the embedding
  renders as `none`.
* `run_prediction` mirrors `model.predict(input_encoded)[0]` at line 326
  with the model as an opaque function on feature vectors.
* `advisories` mirrors the if/elif advisory block at lines 342-359.

Numeric values are embedded as rationals (every value the program
handles here - small integers and the 0/1 indicators - is exactly
representable in floating point, so rational arithmetic is faithful).
-/

namespace Tomato

/-- Feature column order expected by the trained model
(`FEATURE_COLUMNS`, src/app.py lines 219-223). -/
def FEATURE_COLUMNS : List String :=
  ["Maturity_Stage", "Temp_C", "Humidity_Pct", "Transport_KM",
   "Variety_Lanka Sour", "Variety_T-146", "Variety_T-245", "Variety_Thilina Tomato",
   "Packaging_Plastic Crate", "Packaging_Polysack Bag", "Packaging_Wooden Crate"]

/-- The closed variety enumeration (`VARIETIES`, src/app.py line 226). -/
def VARIETIES : List String := ["Lanka Sour", "T-146", "T-245", "Thilina Tomato"]

/-- The closed packaging enumeration (`PACKAGING_TYPES`, src/app.py line 227). -/
def PACKAGING_TYPES : List String := ["Plastic Crate", "Wooden Crate", "Polysack Bag"]

/-- The raw user-facing input record: the six values read from the form
widgets (src/app.py lines 243-299). -/
structure RawInput where
  variety : String
  maturity_stage : Int
  temperature_c : Int
  humidity_pct : Int
  packaging : String
  transport_km : Int

/-- The dictionary built at src/app.py lines 307-320: four numeric
entries, then one 0/1 entry per packaging type, then one 0/1 entry per
variety, keyed exactly as in the source. -/
def input_dict (r : RawInput) : List (String × ℚ) :=
  [("Maturity_Stage", (r.maturity_stage : ℚ)),
   ("Temp_C", (r.temperature_c : ℚ)),
   ("Humidity_Pct", (r.humidity_pct : ℚ)),
   ("Transport_KM", (r.transport_km : ℚ))]
  ++ PACKAGING_TYPES.map (fun p => ("Packaging_" ++ p, if r.packaging = p then (1 : ℚ) else 0))
  ++ VARIETIES.map (fun v => ("Variety_" ++ v, if r.variety = v then (1 : ℚ) else 0))

/-- `pd.DataFrame([input_dict])[FEATURE_COLUMNS]` (src/app.py line 323):
the row reindexed by the fixed column list; a column absent from the
dictionary would raise `KeyError`, rendered here as `none`. -/
def input_encoded (r : RawInput) : Option (List ℚ) :=
  FEATURE_COLUMNS.mapM (fun c => (input_dict r).lookup c)

/-- The variety indicator the one-hot loop at src/app.py lines 319-320
stores for a given variety name. -/
def varietyInd (r : RawInput) (v : String) : ℚ :=
  if r.variety = v then 1 else 0

/-- The packaging indicator the one-hot loop at src/app.py lines 315-316
stores for a given packaging name. -/
def packagingInd (r : RawInput) (p : String) : ℚ :=
  if r.packaging = p then 1 else 0

/-- `model.predict(input_encoded)[0]` (src/app.py line 326), with the
trained model as an opaque function from feature vectors to scalars. -/
def run_prediction (model : List ℚ → ℚ) (r : RawInput) : Option ℚ :=
  (input_encoded r).map model

/-- Closed form of the encoder: the reindexing always succeeds and
produces the four numerics followed by the indicators in
`FEATURE_COLUMNS` order. -/
lemma input_encoded_eq (r : RawInput) :
    input_encoded r = some
      [(r.maturity_stage : ℚ), (r.temperature_c : ℚ),
       (r.humidity_pct : ℚ), (r.transport_km : ℚ),
       varietyInd r "Lanka Sour", varietyInd r "T-146",
       varietyInd r "T-245", varietyInd r "Thilina Tomato",
       packagingInd r "Plastic Crate", packagingInd r "Polysack Bag",
       packagingInd r "Wooden Crate"] := rfl

/-- Severity of a displayed advisory: `st.info`, `st.success` or
`st.warning` in the source. -/
inductive Severity where
  | info
  | success
  | warning
deriving DecidableEq, Repr

/-- "High temperature may reduce shelf life" (src/app.py line 343). -/
def highTempAnn : Severity × String :=
  (Severity.warning, "High temperature may reduce shelf life")

/-- "Cool temperature helps preserve freshness" (src/app.py line 345). -/
def coolTempAnn : Severity × String :=
  (Severity.success, "Cool temperature helps preserve freshness")

/-- "High humidity may increase spoilage risk" (src/app.py line 348). -/
def highHumAnn : Severity × String :=
  (Severity.warning, "High humidity may increase spoilage risk")

/-- "Low humidity may cause dehydration" (src/app.py line 350). -/
def lowHumAnn : Severity × String :=
  (Severity.info, "Low humidity may cause dehydration")

/-- "Ripe tomatoes have shorter shelf life" (src/app.py line 354). -/
def ripeAnn : Severity × String :=
  (Severity.warning, "Ripe tomatoes have shorter shelf life")

/-- "Less mature tomatoes last longer" (src/app.py line 356). -/
def lessMatureAnn : Severity × String :=
  (Severity.success, "Less mature tomatoes last longer")

/-- "Long transport distance may affect quality" (src/app.py line 358). -/
def longTransportAnn : Severity × String :=
  (Severity.warning, "Long transport distance may affect quality")

/-- The advisory block at src/app.py lines 342-359: three if/elif pairs
(temperature, humidity, maturity) followed by the single transport rule,
in the display order of the two insight columns. -/
def advisories (r : RawInput) : List (Severity × String) :=
  (if r.temperature_c > 28 then [highTempAnn]
   else if r.temperature_c < 20 then [coolTempAnn] else [])
  ++ (if r.humidity_pct > 80 then [highHumAnn]
      else if r.humidity_pct < 60 then [lowHumAnn] else [])
  ++ (if r.maturity_stage ≥ 5 then [ripeAnn]
      else if r.maturity_stage ≤ 2 then [lessMatureAnn] else [])
  ++ (if r.transport_km > 150 then [longTransportAnn] else [])

/-- The advisory rule set as the spec states it (section 4.2, P5): seven
independent rules, each firing exactly when its own condition holds,
with no elif coupling. Written from the spec's words for comparison with
`advisories`, which is written from the source. -/
def advisoriesIndep (r : RawInput) : List (Severity × String) :=
  (if r.temperature_c > 28 then [highTempAnn] else [])
  ++ (if r.temperature_c < 20 then [coolTempAnn] else [])
  ++ (if r.humidity_pct > 80 then [highHumAnn] else [])
  ++ (if r.humidity_pct < 60 then [lowHumAnn] else [])
  ++ (if r.maturity_stage ≥ 5 then [ripeAnn] else [])
  ++ (if r.maturity_stage ≤ 2 then [lessMatureAnn] else [])
  ++ (if r.transport_km > 150 then [longTransportAnn] else [])

/-- In each elif pair the two guard conditions are mutually exclusive,
so the chained block produces exactly the annotations of the seven
independent rules. -/
lemma advisories_eq_indep (r : RawInput) : advisories r = advisoriesIndep r := by
  unfold advisories advisoriesIndep
  split_ifs <;> first | rfl | omega

/-- Membership in a conditional singleton list. -/
lemma mem_ite_singleton {α : Type} (a x : α) (p : Prop) [Decidable p] :
    a ∈ (if p then [x] else ([] : List α)) ↔ a = x ∧ p := by
  split_ifs with h <;> simp [h]

/-- Membership characterisation of the advisory output: an annotation is
produced exactly when it is one of the seven and its rule's condition
holds. -/
lemma mem_advisories (r : RawInput) (a : Severity × String) :
    a ∈ advisories r ↔
      (a = highTempAnn ∧ r.temperature_c > 28) ∨
      (a = coolTempAnn ∧ r.temperature_c < 20) ∨
      (a = highHumAnn ∧ r.humidity_pct > 80) ∨
      (a = lowHumAnn ∧ r.humidity_pct < 60) ∨
      (a = ripeAnn ∧ r.maturity_stage ≥ 5) ∨
      (a = lessMatureAnn ∧ r.maturity_stage ≤ 2) ∨
      (a = longTransportAnn ∧ r.transport_km > 150) := by
  rw [advisories_eq_indep]
  unfold advisoriesIndep
  simp only [List.mem_append, mem_ite_singleton, or_assoc]

/-- Scenario A input: T-146, maturity 3, 25 degrees, 70 percent humidity,
plastic crate, 100 km. -/
def rawA : RawInput :=
  { variety := "T-146", maturity_stage := 3, temperature_c := 25,
    humidity_pct := 70, packaging := "Plastic Crate", transport_km := 100 }

/-- Scenario D input: the unknown variety "Banana" with Scenario A's
other fields. -/
def rawBanana : RawInput :=
  { rawA with variety := "Banana" }

/-- Scenario B input with the variety and packaging left open: maturity
6, 30 degrees, 85 percent humidity, 200 km. -/
def rawB (v p : String) : RawInput :=
  { variety := v, maturity_stage := 6, temperature_c := 30,
    humidity_pct := 85, packaging := p, transport_km := 200 }

/-- Scenario C input with the variety and packaging left open: maturity
1, 18 degrees, 50 percent humidity, 20 km. -/
def rawC (v p : String) : RawInput :=
  { variety := v, maturity_stage := 1, temperature_c := 18,
    humidity_pct := 50, packaging := p, transport_km := 20 }

/-- Each of the seven annotations is produced exactly when its own
rule's condition holds on the raw input. -/
lemma highTemp_fires_iff (r : RawInput) :
    highTempAnn ∈ advisories r ↔ r.temperature_c > 28 := by
  rw [mem_advisories]
  simp [highTempAnn, coolTempAnn, highHumAnn, lowHumAnn, ripeAnn,
    lessMatureAnn, longTransportAnn]

lemma coolTemp_fires_iff (r : RawInput) :
    coolTempAnn ∈ advisories r ↔ r.temperature_c < 20 := by
  rw [mem_advisories]
  simp [highTempAnn, coolTempAnn, highHumAnn, lowHumAnn, ripeAnn,
    lessMatureAnn, longTransportAnn]

lemma highHum_fires_iff (r : RawInput) :
    highHumAnn ∈ advisories r ↔ r.humidity_pct > 80 := by
  rw [mem_advisories]
  simp [highTempAnn, coolTempAnn, highHumAnn, lowHumAnn, ripeAnn,
    lessMatureAnn, longTransportAnn]

lemma lowHum_fires_iff (r : RawInput) :
    lowHumAnn ∈ advisories r ↔ r.humidity_pct < 60 := by
  rw [mem_advisories]
  simp [highTempAnn, coolTempAnn, highHumAnn, lowHumAnn, ripeAnn,
    lessMatureAnn, longTransportAnn]

lemma ripe_fires_iff (r : RawInput) :
    ripeAnn ∈ advisories r ↔ r.maturity_stage ≥ 5 := by
  rw [mem_advisories]
  simp [highTempAnn, coolTempAnn, highHumAnn, lowHumAnn, ripeAnn,
    lessMatureAnn, longTransportAnn]

lemma lessMature_fires_iff (r : RawInput) :
    lessMatureAnn ∈ advisories r ↔ r.maturity_stage ≤ 2 := by
  rw [mem_advisories]
  simp [highTempAnn, coolTempAnn, highHumAnn, lowHumAnn, ripeAnn,
    lessMatureAnn, longTransportAnn]

lemma longTransport_fires_iff (r : RawInput) :
    longTransportAnn ∈ advisories r ↔ r.transport_km > 150 := by
  rw [mem_advisories]
  simp [highTempAnn, coolTempAnn, highHumAnn, lowHumAnn, ripeAnn,
    lessMatureAnn, longTransportAnn]

/-- Claim C1: for the Scenario A input (variety T-146, maturity stage 3,
25 degrees, 70 percent humidity, plastic crate, 100 km) the encoder
produces exactly the feature vector [3, 25, 70, 100, 0,1,0,0, 1,0,0] in
the fixed column order, and zero advisory annotations fire. -/
theorem C1_scenarioA :
    input_encoded rawA =
      some [3, 25, 70, 100, 0, 1, 0, 0, 1, 0, 0] ∧
    advisories rawA = [] :=
  ⟨rfl, rfl⟩

/-- Claim C2: for every raw input drawn from the closed enumerations the
encoder returns exactly 11 entries in the fixed column order: the four
numerics, then the variety indicators in order Lanka Sour, T-146, T-245,
Thilina Tomato, then the packaging indicators in order Plastic Crate,
Polysack Bag, Wooden Crate. -/
theorem C2_schema_stability (r : RawInput)
    (_hv : r.variety ∈ VARIETIES) (_hp : r.packaging ∈ PACKAGING_TYPES) :
    ∃ v, input_encoded r = some v ∧ v.length = 11 ∧
      v = [(r.maturity_stage : ℚ), (r.temperature_c : ℚ),
           (r.humidity_pct : ℚ), (r.transport_km : ℚ),
           varietyInd r "Lanka Sour", varietyInd r "T-146",
           varietyInd r "T-245", varietyInd r "Thilina Tomato",
           packagingInd r "Plastic Crate", packagingInd r "Polysack Bag",
           packagingInd r "Wooden Crate"] :=
  ⟨_, input_encoded_eq r, rfl, rfl⟩

/-- Witness for C2 at the Scenario A input. -/
theorem C2_schema_stability_witness :
    ∃ v, input_encoded rawA = some v ∧ v.length = 11 ∧
      v = [(rawA.maturity_stage : ℚ), (rawA.temperature_c : ℚ),
           (rawA.humidity_pct : ℚ), (rawA.transport_km : ℚ),
           varietyInd rawA "Lanka Sour", varietyInd rawA "T-146",
           varietyInd rawA "T-245", varietyInd rawA "Thilina Tomato",
           packagingInd rawA "Plastic Crate", packagingInd rawA "Polysack Bag",
           packagingInd rawA "Wooden Crate"] :=
  C2_schema_stability rawA (by decide) (by decide)

/-- Claim C3: for every valid raw input exactly one of the four variety
indicator entries (positions 4-7) equals 1 and the other three equal 0,
and exactly one of the three packaging indicator entries (positions
8-10) equals 1 and the other two equal 0. -/
theorem C3_one_hot_exclusivity (r : RawInput)
    (hv : r.variety ∈ VARIETIES) (hp : r.packaging ∈ PACKAGING_TYPES) :
    ∃ v, input_encoded r = some v ∧
      ((v.drop 4).take 4).count 1 = 1 ∧ ((v.drop 4).take 4).count 0 = 3 ∧
      (v.drop 8).count 1 = 1 ∧ (v.drop 8).count 0 = 2 := by
  refine ⟨_, input_encoded_eq r, ?_⟩
  simp only [VARIETIES, List.mem_cons, List.not_mem_nil, or_false] at hv
  simp only [PACKAGING_TYPES, List.mem_cons, List.not_mem_nil, or_false] at hp
  rcases hv with h1 | h1 | h1 | h1 <;> rcases hp with h2 | h2 | h2 <;>
    simp [varietyInd, packagingInd, h1, h2]

/-- Witness for C3 at the Scenario A input. -/
theorem C3_one_hot_exclusivity_witness :
    ∃ v, input_encoded rawA = some v ∧
      ((v.drop 4).take 4).count 1 = 1 ∧ ((v.drop 4).take 4).count 0 = 3 ∧
      (v.drop 8).count 1 = 1 ∧ (v.drop 8).count 0 = 2 :=
  C3_one_hot_exclusivity rawA (by decide) (by decide)

/-- Claim C4 counterexample: encoding the Scenario D input (variety
"Banana", outside the closed set) raises no fault at all: a feature
vector is produced, its variety indicators are all zero, and a
prediction is attempted on it - contradicting the claimed
ValidationFault-before-encoding behaviour. -/
theorem C4_counterexample :
    input_encoded rawBanana =
      some [3, 25, 70, 100, 0, 0, 0, 0, 1, 0, 0] ∧
    run_prediction (fun _ => 5) rawBanana = some 5 :=
  ⟨rfl, rfl⟩

/-- Claim C4 (amended): for every raw input whose variety is outside the
closed variety set, the encoder does not fail: it produces a feature
vector whose four variety indicators are all zero, and the prediction is
attempted on that vector for any model. (The code never raises a
ValidationFault; the closed set is enforced only by the UI selectbox
offering exactly the four known varieties.) -/
theorem C4_amended_unknown_variety_all_zero (r : RawInput)
    (hv : r.variety ∉ VARIETIES) :
    ∃ v, input_encoded r = some v ∧ (v.drop 4).take 4 = [0, 0, 0, 0] ∧
      ∀ model : List ℚ → ℚ, run_prediction model r = some (model v) := by
  refine ⟨_, input_encoded_eq r, ?_, fun model => ?_⟩
  · simp only [VARIETIES, List.mem_cons, List.not_mem_nil, or_false,
      not_or] at hv
    obtain ⟨h1, h2, h3, h4⟩ := hv
    simp [varietyInd, h1, h2, h3, h4]
  · show (input_encoded r).map model = _
    rw [input_encoded_eq r]
    rfl

/-- Witness for the amended C4 at the Scenario D input. -/
theorem C4_amended_witness :
    ∃ v, input_encoded rawBanana = some v ∧ (v.drop 4).take 4 = [0, 0, 0, 0] ∧
      ∀ model : List ℚ → ℚ, run_prediction model rawBanana = some (model v) :=
  C4_amended_unknown_variety_all_zero rawBanana (by decide)

/-- Claim C5: for every raw input the first four encoded positions equal
the four numeric fields cast to the scalar type, and replacing the
variety and packaging by any other strings leaves those four positions
unchanged. -/
theorem C5_numeric_passthrough (r : RawInput) :
    ∃ v, input_encoded r = some v ∧
      v.take 4 = [(r.maturity_stage : ℚ), (r.temperature_c : ℚ),
                  (r.humidity_pct : ℚ), (r.transport_km : ℚ)] ∧
      ∀ v2 p2 : String,
        ∃ w, input_encoded { r with variety := v2, packaging := p2 } = some w ∧
          w.take 4 = v.take 4 :=
  ⟨_, input_encoded_eq r, rfl, fun _ _ => ⟨_, input_encoded_eq _, rfl⟩⟩

/-- Claim C6: the advisory block, despite chaining the temperature,
humidity and maturity rule pairs with elif, produces exactly the
annotations of the seven independent rules: the output list equals the
independent-rules list, and each annotation is a member exactly when its
own condition holds on the raw input. -/
theorem C6_advisory_independence (r : RawInput) :
    advisories r = advisoriesIndep r ∧
    (highTempAnn ∈ advisories r ↔ r.temperature_c > 28) ∧
    (coolTempAnn ∈ advisories r ↔ r.temperature_c < 20) ∧
    (highHumAnn ∈ advisories r ↔ r.humidity_pct > 80) ∧
    (lowHumAnn ∈ advisories r ↔ r.humidity_pct < 60) ∧
    (ripeAnn ∈ advisories r ↔ r.maturity_stage ≥ 5) ∧
    (lessMatureAnn ∈ advisories r ↔ r.maturity_stage ≤ 2) ∧
    (longTransportAnn ∈ advisories r ↔ r.transport_km > 150) :=
  ⟨advisories_eq_indep r, highTemp_fires_iff r, coolTemp_fires_iff r,
   highHum_fires_iff r, lowHum_fires_iff r, ripe_fires_iff r,
   lessMature_fires_iff r, longTransport_fires_iff r⟩

/-- Claim C7: for temperature 30, humidity 85, maturity 6, transport 200
(any variety and packaging) exactly the four warnings fire - high
temperature, high humidity, ripe tomato, long transport - and every
produced annotation has warning severity. -/
theorem C7_scenarioB (v p : String) :
    advisories (rawB v p) =
      [highTempAnn, highHumAnn, ripeAnn, longTransportAnn] ∧
    ∀ a ∈ advisories (rawB v p), a.1 = Severity.warning := by
  refine ⟨rfl, ?_⟩
  intro a ha
  rw [show advisories (rawB v p) =
      [highTempAnn, highHumAnn, ripeAnn, longTransportAnn] from rfl] at ha
  simp only [List.mem_cons, List.not_mem_nil, or_false] at ha
  rcases ha with h | h | h | h <;> subst h <;> rfl

/-- Claim C8: for temperature 18, humidity 50, maturity 1, transport 20
(any variety and packaging) exactly three annotations fire - the
cool-temperature success, the low-humidity info and the less-mature
success - and no produced annotation has warning severity. -/
theorem C8_scenarioC (v p : String) :
    advisories (rawC v p) = [coolTempAnn, lowHumAnn, lessMatureAnn] ∧
    ∀ a ∈ advisories (rawC v p), a.1 ≠ Severity.warning := by
  refine ⟨rfl, ?_⟩
  intro a ha
  rw [show advisories (rawC v p) =
      [coolTempAnn, lowHumAnn, lessMatureAnn] from rfl] at ha
  simp only [List.mem_cons, List.not_mem_nil, or_false] at ha
  rcases ha with h | h | h <;> subst h <;> simp [coolTempAnn, lowHumAnn, lessMatureAnn]

/-- Claim C9 counterexample: the pipeline does not force non-negativity.
With a model that outputs -2 on every vector, the Scenario A input
yields the prediction -2, which is negative. -/
theorem C9_counterexample :
    run_prediction (fun _ => (-2 : ℚ)) rawA = some (-2) ∧ ((-2 : ℚ) < 0) :=
  ⟨rfl, by norm_num⟩

/-- Claim C9 (amended): for every model and every raw input the pipeline
returns exactly the model's scalar output on the encoded vector,
unchanged - no clamping or sign check is applied, so the result is
non-negative exactly when the opaque model's output is. -/
theorem C9_amended_prediction_passthrough (model : List ℚ → ℚ) (r : RawInput) :
    run_prediction model r =
      some (model [(r.maturity_stage : ℚ), (r.temperature_c : ℚ),
                   (r.humidity_pct : ℚ), (r.transport_km : ℚ),
                   varietyInd r "Lanka Sour", varietyInd r "T-146",
                   varietyInd r "T-245", varietyInd r "Thilina Tomato",
                   packagingInd r "Plastic Crate", packagingInd r "Polysack Bag",
                   packagingInd r "Wooden Crate"]) := by
  show (input_encoded r).map model = _
  rw [input_encoded_eq r]
  rfl

/-- Claim C10: for every input at most four annotations fire, and within
each elif pair the two annotations are mutually exclusive: high
temperature vs cool temperature, high humidity vs low humidity, ripe vs
less mature. -/
theorem C10_pair_exclusivity (r : RawInput) :
    (advisories r).length ≤ 4 ∧
    ¬(highTempAnn ∈ advisories r ∧ coolTempAnn ∈ advisories r) ∧
    ¬(highHumAnn ∈ advisories r ∧ lowHumAnn ∈ advisories r) ∧
    ¬(ripeAnn ∈ advisories r ∧ lessMatureAnn ∈ advisories r) := by
  refine ⟨?_, ?_, ?_, ?_⟩
  · unfold advisories
    split_ifs <;> simp
  · rw [highTemp_fires_iff, coolTemp_fires_iff]
    omega
  · rw [highHum_fires_iff, lowHum_fires_iff]
    omega
  · rw [ripe_fires_iff, lessMature_fires_iff]
    omega

end Tomato
